import Mathlib

/-!
Verification of the embassy-sync bounded MPMC channel
(`src/embassy-sync/src/channel.rs`).

The channel core is `ChannelState<T, N>`: a `heapless::Deque<T, N>` used as a
strict FIFO ring buffer, plus two single-entry waker slots (`receiver_waker`,
`senders_waker`).  The `Channel<M, T, N>` wrapper only routes every call
through a blocking mutex / `RefCell` into the corresponding `ChannelState`
method, so in this sequential embedding the lock is the identity and the
operations are modelled directly on the state.

Waker side effects are made explicit: every operation returns, besides its
result and the successor state, the list of waker identities it signalled, in
the order they were signalled.  Wakers are identified by `Nat`.  Element
`clone` (used by `try_peek`) is the identity on pure values.
-/

/-- Poll result, mirroring `core::task::Poll`. -/
inductive Poll (α : Type) where
  | Ready (value : α)
  | Pending
deriving DecidableEq, Repr

/-- Modelled from the spec: `WakerRegistration` (embassy-sync `waitqueue`) is
not under `src/`.  Per spec section 4.1 (WakerSlot) it is a single-entry slot:
`register(handle)` replaces the stored continuation (the old handle is dropped
without being woken), `wake()` takes the stored continuation out and signals
it (no-op when empty). -/
structure WakerRegistration where
  waker : Option Nat
deriving DecidableEq, Repr

/-- An empty waker slot. -/
def WakerRegistration.new : WakerRegistration := ⟨none⟩

/-- Replace the stored waker with the registering one. -/
def WakerRegistration.register (_r : WakerRegistration) (w : Nat) : WakerRegistration :=
  ⟨some w⟩

/-- Take the stored waker out and signal it; the signalled identities are
returned as the event list (empty when the slot was empty). -/
def WakerRegistration.wake (r : WakerRegistration) : WakerRegistration × List Nat :=
  match r.waker with
  | some w => (⟨none⟩, [w])
  | none => (⟨none⟩, [])

/-- `heapless::Deque<T, N>`, used by the channel purely as a bounded FIFO
queue (`push_back` / `pop_front` / `front` / `clear` / `len` / `is_empty` /
`is_full`).  Elements are listed front-first. -/
structure Deque (α : Type) (N : Nat) where
  items : List α
deriving DecidableEq, Repr

variable {α : Type} {N : Nat}

/-- `Deque::new()`: the empty queue. -/
def Deque.new : Deque α N := ⟨[]⟩

/-- `Deque::len()`. -/
def Deque.len (q : Deque α N) : Nat := q.items.length

/-- `Deque::is_empty()`. -/
def Deque.is_empty (q : Deque α N) : Bool := q.items.isEmpty

/-- `Deque::is_full()`: length equals the capacity `N`. -/
def Deque.is_full (q : Deque α N) : Bool := q.items.length == N

/-- `Deque::push_back(v)`: `Err(v)` when full, otherwise append at the back. -/
def Deque.push_back (q : Deque α N) (v : α) : Except α (Deque α N) :=
  if q.is_full then .error v else .ok ⟨q.items ++ [v]⟩

/-- `Deque::pop_front()`: remove and return the front element, if any. -/
def Deque.pop_front (q : Deque α N) : Option (α × Deque α N) :=
  match q.items with
  | [] => none
  | v :: rest => some (v, ⟨rest⟩)

/-- `Deque::front()`: the front element, if any, without removing it. -/
def Deque.front (q : Deque α N) : Option α := q.items.head?

/-- `Deque::clear()`. -/
def Deque.clear (_q : Deque α N) : Deque α N := ⟨[]⟩

/-- `TryReceiveError` from channel.rs. -/
inductive TryReceiveError where
  | Empty
deriving DecidableEq, Repr

/-- `TrySendError<T>` from channel.rs: `Full` carries the message back. -/
inductive TrySendError (α : Type) where
  | Full (message : α)
deriving DecidableEq, Repr

/-- `ChannelState<T, N>`: the ring buffer plus the consumer waker slot
(`receiver_waker`) and the producer waker slot (`senders_waker`). -/
structure ChannelState (α : Type) (N : Nat) where
  queue : Deque α N
  receiver_waker : WakerRegistration
  senders_waker : WakerRegistration
deriving DecidableEq, Repr

/-- `ChannelState::new()`. -/
def ChannelState.new : ChannelState α N :=
  ⟨Deque.new, WakerRegistration.new, WakerRegistration.new⟩

/-- `ChannelState::len()`. -/
def ChannelState.len (s : ChannelState α N) : Nat := s.queue.len

/-- `ChannelState::is_empty()`. -/
def ChannelState.is_empty (s : ChannelState α N) : Bool := s.queue.is_empty

/-- `ChannelState::is_full()`. -/
def ChannelState.is_full (s : ChannelState α N) : Bool := s.queue.is_full

/-- `ChannelState::try_peek_with_context`: wake the producer slot when the
queue is full on entry; return a clone of the front element, or register the
consumer waker (when a context is given) and report `Empty`. -/
def ChannelState.try_peek_with_context (s : ChannelState α N) (cx : Option Nat) :
    ChannelState α N × Except TryReceiveError α × List Nat :=
  let p := if s.queue.is_full then s.senders_waker.wake else (s.senders_waker, [])
  match s.queue.front with
  | some message =>
    ({ s with senders_waker := p.1 }, .ok message, p.2)
  | none =>
    let rw := match cx with
      | some w => s.receiver_waker.register w
      | none => s.receiver_waker
    ({ s with senders_waker := p.1, receiver_waker := rw }, .error .Empty, p.2)

/-- `ChannelState::try_receive_with_context`: wake the producer slot when the
queue is full on entry; pop the front element, or register the consumer waker
(when a context is given) and report `Empty`. -/
def ChannelState.try_receive_with_context (s : ChannelState α N) (cx : Option Nat) :
    ChannelState α N × Except TryReceiveError α × List Nat :=
  let p := if s.queue.is_full then s.senders_waker.wake else (s.senders_waker, [])
  match s.queue.pop_front with
  | some (message, q) =>
    (⟨q, s.receiver_waker, p.1⟩, .ok message, p.2)
  | none =>
    let rw := match cx with
      | some w => s.receiver_waker.register w
      | none => s.receiver_waker
    (⟨s.queue, rw, p.1⟩, .error .Empty, p.2)

/-- `ChannelState::try_receive` delegates with no context. -/
def ChannelState.try_receive (s : ChannelState α N) :
    ChannelState α N × Except TryReceiveError α × List Nat :=
  s.try_receive_with_context none

/-- `ChannelState::try_peek` delegates with no context. -/
def ChannelState.try_peek (s : ChannelState α N) :
    ChannelState α N × Except TryReceiveError α × List Nat :=
  s.try_peek_with_context none

/-- `ChannelState::poll_receive`: like `try_receive` but always registers the
consumer waker on `Empty` and returns a `Poll`. -/
def ChannelState.poll_receive (s : ChannelState α N) (k : Nat) :
    ChannelState α N × Poll α × List Nat :=
  let p := if s.queue.is_full then s.senders_waker.wake else (s.senders_waker, [])
  match s.queue.pop_front with
  | some (message, q) =>
    (⟨q, s.receiver_waker, p.1⟩, .Ready message, p.2)
  | none =>
    (⟨s.queue, s.receiver_waker.register k, p.1⟩, .Pending, p.2)

/-- `ChannelState::poll_ready_to_receive`: register the consumer waker
unconditionally, then `Ready` iff non-empty. -/
def ChannelState.poll_ready_to_receive (s : ChannelState α N) (k : Nat) :
    ChannelState α N × Poll Unit :=
  let s1 := { s with receiver_waker := s.receiver_waker.register k }
  if !s1.queue.is_empty then (s1, .Ready ()) else (s1, .Pending)

/-- `ChannelState::try_send_with_context`: on a successful push wake the
consumer slot; on `Full` register the producer waker (when a context is
given) and return the message back. -/
def ChannelState.try_send_with_context (s : ChannelState α N) (message : α)
    (cx : Option Nat) :
    ChannelState α N × Except (TrySendError α) Unit × List Nat :=
  match s.queue.push_back message with
  | .ok q =>
    let p := s.receiver_waker.wake
    (⟨q, p.1, s.senders_waker⟩, .ok (), p.2)
  | .error m =>
    let sw := match cx with
      | some w => s.senders_waker.register w
      | none => s.senders_waker
    ({ s with senders_waker := sw }, .error (.Full m), [])

/-- `ChannelState::try_send` delegates with no context. -/
def ChannelState.try_send (s : ChannelState α N) (message : α) :
    ChannelState α N × Except (TrySendError α) Unit × List Nat :=
  s.try_send_with_context message none

/-- `ChannelState::poll_ready_to_send`: register the producer waker
unconditionally, then `Ready` iff not full. -/
def ChannelState.poll_ready_to_send (s : ChannelState α N) (k : Nat) :
    ChannelState α N × Poll Unit :=
  let s1 := { s with senders_waker := s.senders_waker.register k }
  if !s1.queue.is_full then (s1, .Ready ()) else (s1, .Pending)

/-- `ChannelState::clear`: wake the producer slot when the queue is full on
entry, then empty the queue. -/
def ChannelState.clear (s : ChannelState α N) : ChannelState α N × List Nat :=
  let p := if s.queue.is_full then s.senders_waker.wake else (s.senders_waker, [])
  (⟨s.queue.clear, s.receiver_waker, p.1⟩, p.2)

/-- `Channel::capacity()`: the compile-time constant `N`. -/
def Channel.capacity (_ : ChannelState α N) : Nat := N

/-- `Channel::free_capacity()`: `N - self.len()` (the lock façade around
`ChannelState` is the identity in this sequential embedding). -/
def Channel.free_capacity (s : ChannelState α N) : Nat := N - s.len

/-- `SendFuture` from channel.rs: holds the channel reference (implicit here)
and the optional in-flight message. -/
structure SendFuture (α : Type) (N : Nat) where
  message : Option α
deriving DecidableEq, Repr

/-- `SendFuture::poll`: take the message; on a successful `try_send` complete
with `Ready`, on `Full` put the message back and return `Pending`.  A poll
with `message == None` panics ("Message cannot be None"), modelled as
`none`. -/
def SendFuture.poll (f : SendFuture α N) (s : ChannelState α N) (k : Nat) :
    Option (SendFuture α N × ChannelState α N × Poll Unit × List Nat) :=
  match f.message with
  | some m =>
    match s.try_send_with_context m (some k) with
    | (s1, .ok _, evs) => some (⟨none⟩, s1, .Ready (), evs)
    | (s1, .error (.Full m1), evs) => some (⟨some m1⟩, s1, .Pending, evs)
  | none => none

/-!
Operation traces.  `SROp` restricts to the two operations named by the FIFO
property (`try_send` / `try_receive`); `Op` covers every state-mutating
operation of `ChannelState`, defining the reachable states.
-/

/-- A `try_send` or `try_receive` invocation (with an optional context). -/
inductive SROp (α : Type) where
  | send (v : α) (cx : Option Nat)
  | recv (cx : Option Nat)
deriving DecidableEq, Repr

/-- Run a sequence of `try_send` / `try_receive` operations, collecting the
values accepted by successful sends and the values returned by successful
receives, each in chronological order. -/
def runSR (s : ChannelState α N) : List (SROp α) → ChannelState α N × List α × List α
  | [] => (s, [], [])
  | .send v cx :: ops =>
    let step := s.try_send_with_context v cx
    let rest := runSR step.1 ops
    match step.2.1 with
    | .ok _ => (rest.1, v :: rest.2.1, rest.2.2)
    | .error _ => (rest.1, rest.2.1, rest.2.2)
  | .recv cx :: ops =>
    let step := s.try_receive_with_context cx
    let rest := runSR step.1 ops
    match step.2.1 with
    | .ok v => (rest.1, rest.2.1, v :: rest.2.2)
    | .error _ => (rest.1, rest.2.1, rest.2.2)

/-- Any state-mutating `ChannelState` operation. -/
inductive Op (α : Type) where
  | send (v : α) (cx : Option Nat)
  | recv (cx : Option Nat)
  | peek (cx : Option Nat)
  | pollReceive (k : Nat)
  | pollReadyToReceive (k : Nat)
  | pollReadyToSend (k : Nat)
  | clear
deriving DecidableEq, Repr

/-- The successor state of one operation. -/
def applyOp (s : ChannelState α N) : Op α → ChannelState α N
  | .send v cx => (s.try_send_with_context v cx).1
  | .recv cx => (s.try_receive_with_context cx).1
  | .peek cx => (s.try_peek_with_context cx).1
  | .pollReceive k => (s.poll_receive k).1
  | .pollReadyToReceive k => (s.poll_ready_to_receive k).1
  | .pollReadyToSend k => (s.poll_ready_to_send k).1
  | .clear => s.clear.1

/-- Run a sequence of operations. -/
def runOps (s : ChannelState α N) : List (Op α) → ChannelState α N
  | [] => s
  | op :: ops => runOps (applyOp s op) ops

/-- A state is reachable when some operation sequence produces it from the
freshly constructed channel. -/
def Reachable (s : ChannelState α N) : Prop :=
  ∃ ops : List (Op α), runOps ChannelState.new ops = s

/-- Perform `try_send` for each value in turn; the Bool records whether every
send succeeded. -/
def sendAll (s : ChannelState α N) : List α → ChannelState α N × Bool
  | [] => (s, true)
  | v :: vs =>
    let step := s.try_send_with_context v none
    let rest := sendAll step.1 vs
    match step.2.1 with
    | .ok _ => (rest.1, rest.2)
    | .error _ => (rest.1, false)

/-!
Helper lemmas: the effect of each operation on the queue contents.
-/

theorem try_send_full (s : ChannelState α N) (v : α) (cx : Option Nat)
    (h : s.queue.items.length = N) :
    (s.try_send_with_context v cx).1.queue = s.queue ∧
    (s.try_send_with_context v cx).2.1 = .error (.Full v) ∧
    (s.try_send_with_context v cx).2.2 = [] := by
  simp [ChannelState.try_send_with_context, Deque.push_back, Deque.is_full, h]

theorem try_send_ok (s : ChannelState α N) (v : α) (cx : Option Nat)
    (h : s.queue.items.length ≠ N) :
    (s.try_send_with_context v cx).1.queue.items = s.queue.items ++ [v] ∧
    (s.try_send_with_context v cx).2.1 = .ok () := by
  simp [ChannelState.try_send_with_context, Deque.push_back, Deque.is_full, h]

theorem try_receive_empty (s : ChannelState α N) (cx : Option Nat)
    (h : s.queue.items = []) :
    (s.try_receive_with_context cx).1.queue = s.queue ∧
    (s.try_receive_with_context cx).2.1 = .error .Empty := by
  simp [ChannelState.try_receive_with_context, Deque.pop_front, h]

theorem try_receive_cons (s : ChannelState α N) (cx : Option Nat) (v : α)
    (rest : List α) (h : s.queue.items = v :: rest) :
    (s.try_receive_with_context cx).1.queue.items = rest ∧
    (s.try_receive_with_context cx).2.1 = .ok v := by
  simp [ChannelState.try_receive_with_context, Deque.pop_front, h]

theorem try_peek_queue (s : ChannelState α N) (cx : Option Nat) :
    (s.try_peek_with_context cx).1.queue = s.queue := by
  unfold ChannelState.try_peek_with_context
  cases h : s.queue.front <;> simp [h]

theorem poll_receive_queue_items (s : ChannelState α N) (k : Nat) :
    (s.poll_receive k).1.queue.items = s.queue.items.tail := by
  unfold ChannelState.poll_receive
  cases h : s.queue.pop_front with
  | none =>
    cases hi : s.queue.items with
    | nil => simp [Deque.pop_front, hi] at h ⊢
    | cons v rest => simp [Deque.pop_front, hi] at h
  | some p =>
    cases hi : s.queue.items with
    | nil => simp [Deque.pop_front, hi] at h
    | cons v rest =>
      simp [Deque.pop_front, hi] at h ⊢
      simp [← h]

theorem poll_ready_to_receive_queue (s : ChannelState α N) (k : Nat) :
    (s.poll_ready_to_receive k).1.queue = s.queue := by
  unfold ChannelState.poll_ready_to_receive
  dsimp only
  split <;> rfl

theorem poll_ready_to_send_queue (s : ChannelState α N) (k : Nat) :
    (s.poll_ready_to_send k).1.queue = s.queue := by
  unfold ChannelState.poll_ready_to_send
  dsimp only
  split <;> rfl

theorem clear_queue_items (s : ChannelState α N) : s.clear.1.queue.items = [] := by
  simp [ChannelState.clear, Deque.clear]

theorem applyOp_len_le (s : ChannelState α N) (op : Op α) (h : s.len ≤ N) :
    (applyOp s op).len ≤ N := by
  cases op with
  | send v cx =>
    by_cases hf : s.queue.items.length = N
    · have e := (try_send_full s v cx hf).1
      simpa [applyOp, ChannelState.len, Deque.len, e] using h
    · have e := (try_send_ok s v cx hf).1
      simp only [applyOp, ChannelState.len, Deque.len, e, List.length_append,
        List.length_singleton]
      simp only [ChannelState.len, Deque.len] at h
      omega
  | recv cx =>
    cases hi : s.queue.items with
    | nil =>
      have e := (try_receive_empty s cx hi).1
      simpa [applyOp, ChannelState.len, Deque.len, e] using h
    | cons v rest =>
      have e := (try_receive_cons s cx v rest hi).1
      simp only [applyOp, ChannelState.len, Deque.len, e]
      simp only [ChannelState.len, Deque.len, hi, List.length_cons] at h
      omega
  | peek cx =>
    have e := try_peek_queue s cx
    simpa [applyOp, ChannelState.len, Deque.len, e] using h
  | pollReceive k =>
    have e := poll_receive_queue_items s k
    simp only [applyOp, ChannelState.len, Deque.len, e, List.length_tail]
    simp only [ChannelState.len, Deque.len] at h
    omega
  | pollReadyToReceive k =>
    have e := poll_ready_to_receive_queue s k
    simpa [applyOp, ChannelState.len, Deque.len, e] using h
  | pollReadyToSend k =>
    have e := poll_ready_to_send_queue s k
    simpa [applyOp, ChannelState.len, Deque.len, e] using h
  | clear =>
    simp [applyOp, ChannelState.len, Deque.len, clear_queue_items]

theorem runOps_len_le (ops : List (Op α)) (s : ChannelState α N) (h : s.len ≤ N) :
    (runOps s ops).len ≤ N := by
  induction ops generalizing s with
  | nil => simpa [runOps] using h
  | cons op ops ih =>
    simp only [runOps]
    exact ih _ (applyOp_len_le s op h)

theorem reachable_len_le (s : ChannelState α N) (h : Reachable s) : s.len ≤ N := by
  obtain ⟨ops, hops⟩ := h
  have hrun : (runOps (ChannelState.new (α := α) (N := N)) ops).len ≤ N := by
    apply runOps_len_le
    simp [ChannelState.new, ChannelState.len, Deque.new, Deque.len]
  simpa [hops] using hrun

/-- C2: on every reachable channel state, `len` lies in `[0, N]`,
`len + free_capacity = N`, `is_empty` holds iff `len = 0`, and `is_full`
holds iff `len = N`; reachability quantifies over arbitrary sequences of
`try_send`, `try_receive`, `try_peek`, `clear` and the `poll_*`
operations. -/
theorem c2_channel_invariants (s : ChannelState α N) (h : Reachable s) :
    s.len ≤ N ∧
    s.len + Channel.free_capacity s = N ∧
    (s.is_empty = true ↔ s.len = 0) ∧
    (s.is_full = true ↔ s.len = N) := by
  have hle := reachable_len_le s h
  refine ⟨hle, ?_, ?_, ?_⟩
  · simp only [Channel.free_capacity]
    omega
  · simp [ChannelState.is_empty, Deque.is_empty, ChannelState.len, Deque.len,
      List.isEmpty_iff, List.length_eq_zero]
  · simp [ChannelState.is_full, Deque.is_full, ChannelState.len, Deque.len]

/-- Witness for C2: the state of a capacity-2 channel after a send, a second
send and a receive. -/
theorem c2_channel_invariants_witness :
    (runOps (ChannelState.new : ChannelState Nat 2)
        [Op.send 5 none, Op.send 6 none, Op.recv none]).len ≤ 2 ∧
    (runOps (ChannelState.new : ChannelState Nat 2)
        [Op.send 5 none, Op.send 6 none, Op.recv none]).len +
      Channel.free_capacity (runOps (ChannelState.new : ChannelState Nat 2)
        [Op.send 5 none, Op.send 6 none, Op.recv none]) = 2 ∧
    ((runOps (ChannelState.new : ChannelState Nat 2)
        [Op.send 5 none, Op.send 6 none, Op.recv none]).is_empty = true ↔
      (runOps (ChannelState.new : ChannelState Nat 2)
        [Op.send 5 none, Op.send 6 none, Op.recv none]).len = 0) ∧
    ((runOps (ChannelState.new : ChannelState Nat 2)
        [Op.send 5 none, Op.send 6 none, Op.recv none]).is_full = true ↔
      (runOps (ChannelState.new : ChannelState Nat 2)
        [Op.send 5 none, Op.send 6 none, Op.recv none]).len = 2) :=
  c2_channel_invariants _ ⟨[Op.send 5 none, Op.send 6 none, Op.recv none], rfl⟩

theorem runSR_eq (ops : List (SROp α)) (s : ChannelState α N) :
    s.queue.items ++ (runSR s ops).2.1 =
    (runSR s ops).2.2 ++ (runSR s ops).1.queue.items := by
  induction ops generalizing s with
  | nil => simp [runSR]
  | cons op ops ih =>
    cases op with
    | send v cx =>
      by_cases hf : s.queue.items.length = N
      · obtain ⟨e1, e2, -⟩ := try_send_full s v cx hf
        simp only [runSR, e2]
        have h2 := ih ((s.try_send_with_context v cx).1)
        rw [e1] at h2
        exact h2
      · obtain ⟨e1, e2⟩ := try_send_ok s v cx hf
        simp only [runSR, e2]
        have h2 := ih ((s.try_send_with_context v cx).1)
        rw [e1] at h2
        simp only [List.append_assoc, List.singleton_append] at h2
        exact h2
    | recv cx =>
      cases hi : s.queue.items with
      | nil =>
        obtain ⟨e1, e2⟩ := try_receive_empty s cx hi
        simp only [runSR, e2]
        have h2 := ih ((s.try_receive_with_context cx).1)
        rw [e1, hi] at h2
        exact h2
      | cons v rest =>
        obtain ⟨e1, e2⟩ := try_receive_cons s cx v rest hi
        simp only [runSR, e2]
        have h2 := ih ((s.try_receive_with_context cx).1)
        rw [e1] at h2
        simp only [List.cons_append, h2]

/-- C1: for every finite sequence of `try_send` / `try_receive` operations on
a channel starting empty, the values returned by successful `try_receive`
calls form a prefix of the values accepted by successful `try_send` calls, in
the same order (strict FIFO, no loss, no duplication). -/
theorem c1_fifo_order (ops : List (SROp α)) :
    ∃ rest : List α,
      (runSR (ChannelState.new : ChannelState α N) ops).2.2 ++ rest =
      (runSR (ChannelState.new : ChannelState α N) ops).2.1 := by
  have h := runSR_eq ops (ChannelState.new : ChannelState α N)
  simp only [ChannelState.new, Deque.new, List.nil_append] at h
  exact ⟨(runSR (ChannelState.new : ChannelState α N) ops).1.queue.items, h.symm⟩

theorem sendAll_ok (vs : List α) (s : ChannelState α N)
    (h : s.queue.items.length + vs.length ≤ N) :
    (sendAll s vs).2 = true ∧ (sendAll s vs).1.queue.items = s.queue.items ++ vs := by
  induction vs generalizing s with
  | nil => simp [sendAll]
  | cons v vs ih =>
    have hf : s.queue.items.length ≠ N := by
      simp only [List.length_cons] at h
      omega
    obtain ⟨e1, e2⟩ := try_send_ok s v none hf
    simp only [sendAll, e2]
    have hlen : (s.try_send_with_context v none).1.queue.items.length + vs.length ≤ N := by
      rw [e1]
      simp only [List.length_append, List.length_singleton]
      simp only [List.length_cons] at h
      omega
    have h2 := ih _ hlen
    refine ⟨h2.1, ?_⟩
    rw [h2.2, e1, List.append_assoc, List.singleton_append]

/-- C3: on a channel of capacity `N` starting empty, `N` consecutive
`try_send` calls all succeed (leaving exactly the sent values in order); the
`(N+1)`-th `try_send` returns `Full` carrying back exactly the message passed
in, and leaves the queue contents and the length unchanged. -/
theorem c3_fill_then_full (vs : List α) (w : α) (cx : Option Nat)
    (h : vs.length = N) :
    (sendAll (ChannelState.new : ChannelState α N) vs).2 = true ∧
    (sendAll (ChannelState.new : ChannelState α N) vs).1.queue.items = vs ∧
    ((sendAll (ChannelState.new : ChannelState α N) vs).1.try_send_with_context
        w cx).2.1 = .error (.Full w) ∧
    ((sendAll (ChannelState.new : ChannelState α N) vs).1.try_send_with_context
        w cx).1.queue =
      (sendAll (ChannelState.new : ChannelState α N) vs).1.queue ∧
    ((sendAll (ChannelState.new : ChannelState α N) vs).1.try_send_with_context
        w cx).1.len =
      (sendAll (ChannelState.new : ChannelState α N) vs).1.len := by
  have h0 : (ChannelState.new : ChannelState α N).queue.items.length + vs.length ≤ N := by
    simp [ChannelState.new, Deque.new, h]
  obtain ⟨hb, hq⟩ := sendAll_ok vs _ h0
  have hqnil : (ChannelState.new : ChannelState α N).queue.items = [] := rfl
  rw [hqnil, List.nil_append] at hq
  have hfull : (sendAll (ChannelState.new : ChannelState α N) vs).1.queue.items.length = N := by
    rw [hq, h]
  obtain ⟨f1, f2, -⟩ := try_send_full _ w cx hfull
  exact ⟨hb, hq, f2, f1, by simp [ChannelState.len, Deque.len, f1]⟩

/-- Witness for C3 at capacity 2: both sends of `[5, 6]` succeed and the
third send returns `Full 7` leaving the queue untouched. -/
theorem c3_fill_then_full_witness :
    (sendAll (ChannelState.new : ChannelState Nat 2) [5, 6]).2 = true ∧
    (sendAll (ChannelState.new : ChannelState Nat 2) [5, 6]).1.queue.items = [5, 6] ∧
    ((sendAll (ChannelState.new : ChannelState Nat 2) [5, 6]).1.try_send_with_context
        7 none).2.1 = .error (.Full 7) ∧
    ((sendAll (ChannelState.new : ChannelState Nat 2) [5, 6]).1.try_send_with_context
        7 none).1.queue =
      (sendAll (ChannelState.new : ChannelState Nat 2) [5, 6]).1.queue ∧
    ((sendAll (ChannelState.new : ChannelState Nat 2) [5, 6]).1.try_send_with_context
        7 none).1.len =
      (sendAll (ChannelState.new : ChannelState Nat 2) [5, 6]).1.len :=
  c3_fill_then_full [5, 6] 7 none (by decide)

theorem try_peek_result_some (s : ChannelState α N) (cx : Option Nat) (v : α)
    (h : s.queue.front = some v) :
    (s.try_peek_with_context cx).2.1 = .ok v := by
  unfold ChannelState.try_peek_with_context
  simp [h]

theorem try_peek_result_none (s : ChannelState α N) (cx : Option Nat)
    (h : s.queue.front = none) :
    (s.try_peek_with_context cx).2.1 = .error .Empty := by
  unfold ChannelState.try_peek_with_context
  simp [h]

/-- C4: `try_peek` never removes an element: it leaves the queue contents and
length unchanged, returns a clone of the front element when the queue is
non-empty, two successive `try_peek` calls with no intervening mutation
return equal values, and a `try_receive` directly after a successful
`try_peek` returns that same value. -/
theorem c4_peek_nondestructive (s : ChannelState α N) (cx cx' cx'' : Option Nat) :
    (s.try_peek_with_context cx).1.queue = s.queue ∧
    (s.try_peek_with_context cx).1.len = s.len ∧
    (∀ v, s.queue.front = some v → (s.try_peek_with_context cx).2.1 = .ok v) ∧
    ((s.try_peek_with_context cx).1.try_peek_with_context cx').2.1 =
      (s.try_peek_with_context cx).2.1 ∧
    (∀ v, (s.try_peek_with_context cx).2.1 = .ok v →
      ((s.try_peek_with_context cx).1.try_receive_with_context cx'').2.1 = .ok v) := by
  have hq := try_peek_queue s cx
  refine ⟨hq, by simp [ChannelState.len, Deque.len, hq], ?_, ?_, ?_⟩
  · intro v hv
    exact try_peek_result_some s cx v hv
  · cases hfront : s.queue.front with
    | some v =>
      rw [try_peek_result_some s cx v hfront,
        try_peek_result_some _ cx' v (by rw [hq]; exact hfront)]
    | none =>
      rw [try_peek_result_none s cx hfront,
        try_peek_result_none _ cx' (by rw [hq]; exact hfront)]
  · intro v hv
    cases hi : s.queue.items with
    | nil =>
      rw [try_peek_result_none s cx (by simp [Deque.front, hi])] at hv
      exact absurd hv (by simp)
    | cons a rest =>
      rw [try_peek_result_some s cx a (by simp [Deque.front, hi])] at hv
      have hav : a = v := by
        injection hv
      have hcons := try_receive_cons ((s.try_peek_with_context cx).1) cx'' a rest
        (by rw [hq]; exact hi)
      rw [hcons.2, hav]

/-- Witness for C4 on a capacity-2 channel holding `[4]`: the peek returns
`4` and the receive directly after the peek returns `4` as well. -/
theorem c4_peek_nondestructive_witness :
    ((⟨⟨[4]⟩, ⟨none⟩, ⟨none⟩⟩ : ChannelState Nat 2).try_peek_with_context
        none).2.1 = .ok 4 ∧
    (((⟨⟨[4]⟩, ⟨none⟩, ⟨none⟩⟩ : ChannelState Nat 2).try_peek_with_context
        none).1.try_receive_with_context none).2.1 = .ok 4 :=
  ⟨(c4_peek_nondestructive (⟨⟨[4]⟩, ⟨none⟩, ⟨none⟩⟩ : ChannelState Nat 2)
      none none none).2.2.1 4 (by decide),
   (c4_peek_nondestructive (⟨⟨[4]⟩, ⟨none⟩, ⟨none⟩⟩ : ChannelState Nat 2)
      none none none).2.2.2.2 4 rfl⟩

theorem wake_fst (r : WakerRegistration) : r.wake.1 = ⟨none⟩ := by
  cases r with
  | mk w => cases w <;> rfl

theorem try_send_full_state (s : ChannelState α N) (v : α) (k : Nat)
    (h : s.queue.items.length = N) :
    (s.try_send_with_context v (some k)).1 = { s with senders_waker := ⟨some k⟩ } := by
  simp [ChannelState.try_send_with_context, Deque.push_back, Deque.is_full, h,
    WakerRegistration.register]

/-- C5: after `clear()` the length is `0`; `clear()` wakes the producer slot
exactly when the queue was full upon entry; in particular a producer parked
by a failed `try_send` (whose waker `k` was registered after the `Full`
return) is signalled by a following `clear()`. -/
theorem c5_clear_empties_and_wakes (s : ChannelState α N) (m : α) (k : Nat) :
    s.clear.1.len = 0 ∧
    s.clear.2 = (if s.is_full = true then (s.senders_waker.wake).2 else []) ∧
    ((s.try_send_with_context m (some k)).2.1 = .error (.Full m) →
      (s.try_send_with_context m (some k)).1.clear.2 = [k]) := by
  refine ⟨by simp [ChannelState.clear, ChannelState.len, Deque.len, Deque.clear], ?_, ?_⟩
  · by_cases hf : s.queue.is_full = true
    · simp [ChannelState.clear, ChannelState.is_full, hf]
    · simp [ChannelState.clear, ChannelState.is_full, eq_false_of_ne_true hf]
  · intro hfail
    by_cases hf : s.queue.items.length = N
    · rw [try_send_full_state s m k hf]
      simp [ChannelState.clear, Deque.is_full, hf, WakerRegistration.wake]
    · obtain ⟨-, e2⟩ := try_send_ok s m (some k) hf
      rw [e2] at hfail
      exact absurd hfail (by simp)

/-- Witness for C5 on a full capacity-1 channel: clear empties it, the wake
condition fires, and a parked producer (waker 5) is signalled by clear. -/
theorem c5_clear_empties_and_wakes_witness :
    (⟨⟨[1]⟩, ⟨none⟩, ⟨none⟩⟩ : ChannelState Nat 1).clear.1.len = 0 ∧
    (⟨⟨[1]⟩, ⟨none⟩, ⟨none⟩⟩ : ChannelState Nat 1).clear.2 =
      (if (⟨⟨[1]⟩, ⟨none⟩, ⟨none⟩⟩ : ChannelState Nat 1).is_full = true
        then ((⟨⟨[1]⟩, ⟨none⟩, ⟨none⟩⟩ : ChannelState Nat 1).senders_waker.wake).2
        else []) ∧
    ((⟨⟨[1]⟩, ⟨none⟩, ⟨none⟩⟩ : ChannelState Nat 1).try_send_with_context 2
        (some 5)).1.clear.2 = [5] :=
  ⟨(c5_clear_empties_and_wakes (⟨⟨[1]⟩, ⟨none⟩, ⟨none⟩⟩ : ChannelState Nat 1) 2 5).1,
   (c5_clear_empties_and_wakes (⟨⟨[1]⟩, ⟨none⟩, ⟨none⟩⟩ : ChannelState Nat 1) 2 5).2.1,
   (c5_clear_empties_and_wakes (⟨⟨[1]⟩, ⟨none⟩, ⟨none⟩⟩ : ChannelState Nat 1) 2 5).2.2 rfl⟩

/-- C6: whenever `try_receive`, `try_peek` or `poll_receive` is entered with
the queue full, the producer waker slot is signalled from the entry state
(before any element is dequeued — for `try_peek` even though nothing is
dequeued) and the slot is empty afterward. -/
theorem c6_full_entry_wakes_producer (s : ChannelState α N) (cx : Option Nat)
    (k : Nat) (h : s.is_full = true) :
    ((s.try_receive_with_context cx).2.2 = (s.senders_waker.wake).2 ∧
      (s.try_receive_with_context cx).1.senders_waker = ⟨none⟩) ∧
    ((s.try_peek_with_context cx).2.2 = (s.senders_waker.wake).2 ∧
      (s.try_peek_with_context cx).1.senders_waker = ⟨none⟩) ∧
    ((s.poll_receive k).2.2 = (s.senders_waker.wake).2 ∧
      (s.poll_receive k).1.senders_waker = ⟨none⟩) := by
  have hf : s.queue.is_full = true := h
  refine ⟨?_, ?_, ?_⟩
  · unfold ChannelState.try_receive_with_context
    cases hp : s.queue.pop_front <;> simp [hf, hp, wake_fst]
  · unfold ChannelState.try_peek_with_context
    cases hp : s.queue.front <;> simp [hf, hp, wake_fst]
  · unfold ChannelState.poll_receive
    cases hp : s.queue.pop_front <;> simp [hf, hp, wake_fst]

/-- Witness for C6 on a full capacity-1 channel whose producer slot holds
waker 9. -/
theorem c6_full_entry_wakes_producer_witness :
    (((⟨⟨[4]⟩, ⟨none⟩, ⟨some 9⟩⟩ : ChannelState Nat 1).try_receive_with_context
        none).2.2 =
      ((⟨⟨[4]⟩, ⟨none⟩, ⟨some 9⟩⟩ : ChannelState Nat 1).senders_waker.wake).2 ∧
      ((⟨⟨[4]⟩, ⟨none⟩, ⟨some 9⟩⟩ : ChannelState Nat 1).try_receive_with_context
        none).1.senders_waker = ⟨none⟩) ∧
    (((⟨⟨[4]⟩, ⟨none⟩, ⟨some 9⟩⟩ : ChannelState Nat 1).try_peek_with_context
        none).2.2 =
      ((⟨⟨[4]⟩, ⟨none⟩, ⟨some 9⟩⟩ : ChannelState Nat 1).senders_waker.wake).2 ∧
      ((⟨⟨[4]⟩, ⟨none⟩, ⟨some 9⟩⟩ : ChannelState Nat 1).try_peek_with_context
        none).1.senders_waker = ⟨none⟩) ∧
    (((⟨⟨[4]⟩, ⟨none⟩, ⟨some 9⟩⟩ : ChannelState Nat 1).poll_receive 3).2.2 =
      ((⟨⟨[4]⟩, ⟨none⟩, ⟨some 9⟩⟩ : ChannelState Nat 1).senders_waker.wake).2 ∧
      ((⟨⟨[4]⟩, ⟨none⟩, ⟨some 9⟩⟩ : ChannelState Nat 1).poll_receive
        3).1.senders_waker = ⟨none⟩) :=
  c6_full_entry_wakes_producer (⟨⟨[4]⟩, ⟨none⟩, ⟨some 9⟩⟩ : ChannelState Nat 1)
    none 3 rfl

/-- C7: a `try_send` entered on an empty queue (with `0 < N`) succeeds, makes
the queue non-empty, and signals and clears the consumer waker slot before
returning. -/
theorem c7_send_on_empty_wakes_consumer (s : ChannelState α N) (v : α)
    (cx : Option Nat) (h : s.is_empty = true) (hN : 0 < N) :
    (s.try_send_with_context v cx).2.1 = .ok () ∧
    (s.try_send_with_context v cx).1.is_empty = false ∧
    (s.try_send_with_context v cx).2.2 = (s.receiver_waker.wake).2 ∧
    (s.try_send_with_context v cx).1.receiver_waker = ⟨none⟩ := by
  have hi : s.queue.items = [] := by
    simpa [ChannelState.is_empty, Deque.is_empty, List.isEmpty_iff] using h
  have hf : s.queue.is_full = false := by
    simp [Deque.is_full, hi]
    omega
  unfold ChannelState.try_send_with_context
  simp [Deque.push_back, hf, hi, wake_fst, ChannelState.is_empty, Deque.is_empty]

/-- Witness for C7 on an empty capacity-2 channel whose consumer slot holds
waker 8. -/
theorem c7_send_on_empty_wakes_consumer_witness :
    ((⟨⟨[]⟩, ⟨some 8⟩, ⟨none⟩⟩ : ChannelState Nat 2).try_send_with_context 5
        none).2.1 = .ok () ∧
    ((⟨⟨[]⟩, ⟨some 8⟩, ⟨none⟩⟩ : ChannelState Nat 2).try_send_with_context 5
        none).1.is_empty = false ∧
    ((⟨⟨[]⟩, ⟨some 8⟩, ⟨none⟩⟩ : ChannelState Nat 2).try_send_with_context 5
        none).2.2 =
      ((⟨⟨[]⟩, ⟨some 8⟩, ⟨none⟩⟩ : ChannelState Nat 2).receiver_waker.wake).2 ∧
    ((⟨⟨[]⟩, ⟨some 8⟩, ⟨none⟩⟩ : ChannelState Nat 2).try_send_with_context 5
        none).1.receiver_waker = ⟨none⟩ :=
  c7_send_on_empty_wakes_consumer (⟨⟨[]⟩, ⟨some 8⟩, ⟨none⟩⟩ : ChannelState Nat 2)
    5 none rfl (by decide)

/-- C8: `poll_receive` on an empty channel returns `Pending` with waker `w`
registered in the consumer slot; the next successful `try_send` signals
exactly `w`, and with no intervening receive the following `poll_receive`
returns `Ready` with the sent value. -/
theorem c8_pending_receive_woken_by_send (s : ChannelState α N) (w : Nat)
    (v : α) (cx : Option Nat) (w2 : Nat) (h : s.queue.items = []) (hN : 0 < N) :
    (s.poll_receive w).2.1 = .Pending ∧
    (s.poll_receive w).1.receiver_waker = ⟨some w⟩ ∧
    ((s.poll_receive w).1.try_send_with_context v cx).2.1 = .ok () ∧
    ((s.poll_receive w).1.try_send_with_context v cx).2.2 = [w] ∧
    (((s.poll_receive w).1.try_send_with_context v cx).1.poll_receive
        w2).2.1 = .Ready v := by
  have hf : s.queue.is_full = false := by
    simp [Deque.is_full, h]
    omega
  have e1 : s.poll_receive w =
      (⟨s.queue, ⟨some w⟩, s.senders_waker⟩, .Pending, []) := by
    unfold ChannelState.poll_receive
    simp [hf, Deque.pop_front, h, WakerRegistration.register]
  have e2 : (⟨s.queue, ⟨some w⟩, s.senders_waker⟩ :
      ChannelState α N).try_send_with_context v cx =
      (⟨⟨[v]⟩, ⟨none⟩, s.senders_waker⟩, .ok (), [w]) := by
    unfold ChannelState.try_send_with_context
    simp [Deque.push_back, hf, h, WakerRegistration.wake]
  have e3 : ((⟨⟨[v]⟩, ⟨none⟩, s.senders_waker⟩ :
      ChannelState α N).poll_receive w2).2.1 = .Ready v := by
    unfold ChannelState.poll_receive
    simp [Deque.pop_front]
  rw [e1]
  exact ⟨rfl, rfl, by rw [e2], by rw [e2], by rw [e2]; exact e3⟩

/-- Witness for C8 on an empty capacity-1 channel: waker 6 is parked, the
send of 42 signals it, and the re-poll yields `Ready 42`. -/
theorem c8_pending_receive_woken_by_send_witness :
    ((ChannelState.new : ChannelState Nat 1).poll_receive 6).2.1 = .Pending ∧
    ((ChannelState.new : ChannelState Nat 1).poll_receive 6).1.receiver_waker =
      ⟨some 6⟩ ∧
    (((ChannelState.new : ChannelState Nat 1).poll_receive
        6).1.try_send_with_context 42 none).2.1 = .ok () ∧
    (((ChannelState.new : ChannelState Nat 1).poll_receive
        6).1.try_send_with_context 42 none).2.2 = [6] ∧
    ((((ChannelState.new : ChannelState Nat 1).poll_receive
        6).1.try_send_with_context 42 none).1.poll_receive 2).2.1 = .Ready 42 :=
  c8_pending_receive_woken_by_send (ChannelState.new : ChannelState Nat 1) 6 42
    none 2 rfl (by decide)

theorem sendFuture_poll_some (m : α) (s : ChannelState α N) (k : Nat) :
    SendFuture.poll ⟨some m⟩ s k =
      (match s.try_send_with_context m (some k) with
        | (s1, .ok _, evs) => some (⟨none⟩, s1, .Ready (), evs)
        | (s1, .error (.Full m1), evs) => some (⟨some m1⟩, s1, .Pending, evs)) := rfl

/-- C9: polling a `SendFuture` whose message is `None` is a hard failure
(panic, modelled as `none`); a poll that returns `Ready` leaves the message
`None`, so any re-poll afterwards panics; a poll that returns `Pending` puts
the message back, so each re-poll retries the same message. -/
theorem c9_send_future_repoll (f : SendFuture α N) (s : ChannelState α N)
    (k : Nat) :
    (f.message = none → f.poll s k = none) ∧
    (∀ f1 s1 evs, f.poll s k = some (f1, s1, .Ready (), evs) →
      f1.message = none ∧ ∀ s2 k2, f1.poll s2 k2 = none) ∧
    (∀ f1 s1 evs, f.poll s k = some (f1, s1, .Pending, evs) →
      f1.message = f.message) := by
  refine ⟨?_, ?_, ?_⟩
  · intro h
    simp [SendFuture.poll, h]
  · intro f1 s1 evs h
    cases f with
    | mk msg =>
      cases msg with
      | none => simp [SendFuture.poll] at h
      | some m =>
        rw [sendFuture_poll_some] at h
        by_cases hf : s.queue.items.length = N
        · obtain ⟨-, e2, -⟩ := try_send_full s m (some k) hf
          cases hs : s.try_send_with_context m (some k) with
          | mk s' rest =>
            obtain ⟨r, evs'⟩ := rest
            rw [hs] at h e2
            simp at e2
            subst e2
            simp at h
        · obtain ⟨-, e2⟩ := try_send_ok s m (some k) hf
          cases hs : s.try_send_with_context m (some k) with
          | mk s' rest =>
            obtain ⟨r, evs'⟩ := rest
            rw [hs] at h e2
            simp at e2
            subst e2
            simp at h
            obtain ⟨h1, -⟩ := h
            constructor
            · rw [← h1]
            · intro s2 k2
              rw [← h1]
              simp [SendFuture.poll]
  · intro f1 s1 evs h
    cases f with
    | mk msg =>
      cases msg with
      | none => simp [SendFuture.poll] at h
      | some m =>
        rw [sendFuture_poll_some] at h
        by_cases hf : s.queue.items.length = N
        · obtain ⟨-, e2, -⟩ := try_send_full s m (some k) hf
          cases hs : s.try_send_with_context m (some k) with
          | mk s' rest =>
            obtain ⟨r, evs'⟩ := rest
            rw [hs] at h e2
            simp at e2
            subst e2
            simp at h
            obtain ⟨h1, -⟩ := h
            rw [← h1]
        · obtain ⟨-, e2⟩ := try_send_ok s m (some k) hf
          cases hs : s.try_send_with_context m (some k) with
          | mk s' rest =>
            obtain ⟨r, evs'⟩ := rest
            rw [hs] at h e2
            simp at e2
            subst e2
            simp at h

/-- Witness for C9: a capacity-1 send future completes (`Ready`), after which
its message is `None` and a re-poll panics (`none`); a poll with no message
panics; a `Pending` poll on a full channel keeps the message `some 4`. -/
theorem c9_send_future_repoll_witness :
    (⟨none⟩ : SendFuture Nat 1).message = none ∧
    SendFuture.poll (⟨none⟩ : SendFuture Nat 1)
      (⟨⟨[3]⟩, ⟨none⟩, ⟨none⟩⟩ : ChannelState Nat 1) 1 = none ∧
    SendFuture.poll (⟨none⟩ : SendFuture Nat 1) ChannelState.new 5 = none ∧
    (⟨some 4⟩ : SendFuture Nat 1).message = (⟨some 4⟩ : SendFuture Nat 1).message :=
  ⟨((c9_send_future_repoll (⟨some 3⟩ : SendFuture Nat 1) ChannelState.new 0).2.1
      ⟨none⟩ ⟨⟨[3]⟩, ⟨none⟩, ⟨none⟩⟩ [] rfl).1,
   ((c9_send_future_repoll (⟨some 3⟩ : SendFuture Nat 1) ChannelState.new 0).2.1
      ⟨none⟩ ⟨⟨[3]⟩, ⟨none⟩, ⟨none⟩⟩ [] rfl).2 (⟨⟨[3]⟩, ⟨none⟩, ⟨none⟩⟩) 1,
   (c9_send_future_repoll (⟨none⟩ : SendFuture Nat 1) ChannelState.new 5).1 rfl,
   (c9_send_future_repoll (⟨some 4⟩ : SendFuture Nat 1)
      (⟨⟨[9]⟩, ⟨none⟩, ⟨none⟩⟩ : ChannelState Nat 1) 0).2.2
      ⟨some 4⟩ ⟨⟨[9]⟩, ⟨none⟩, ⟨some 0⟩⟩ [] rfl⟩

theorem poll_ready_to_receive_state (s : ChannelState α N) (k : Nat) :
    (s.poll_ready_to_receive k).1 = { s with receiver_waker := ⟨some k⟩ } := by
  unfold ChannelState.poll_ready_to_receive
  dsimp only
  split <;> rfl

theorem try_send_ok_wakes (s : ChannelState α N) (v : α) (cx : Option Nat)
    (h : s.queue.items.length ≠ N) :
    (s.try_send_with_context v cx).2.2 = (s.receiver_waker.wake).2 ∧
    (s.try_send_with_context v cx).1.receiver_waker = (s.receiver_waker.wake).1 := by
  simp [ChannelState.try_send_with_context, Deque.push_back, Deque.is_full, h]

/-- Counterexample for C10: on a capacity-2 channel, register consumer waker
7 via `poll_ready_to_receive`, then send twice.  Both sends succeed, but only
the first signals waker 7; the second successful send signals nothing,
because the first wake emptied the consumer slot.  This contradicts the
claim that the registered consumer is re-signalled by every subsequent
successful send. -/
theorem c10_counterexample :
    (((ChannelState.new : ChannelState Nat 2).poll_ready_to_receive
        7).1.try_send_with_context 1 none).2.1 = .ok () ∧
    (((ChannelState.new : ChannelState Nat 2).poll_ready_to_receive
        7).1.try_send_with_context 1 none).2.2 = [7] ∧
    ((((ChannelState.new : ChannelState Nat 2).poll_ready_to_receive
        7).1.try_send_with_context 1 none).1.try_send_with_context 2
        none).2.1 = .ok () ∧
    ¬ ((((ChannelState.new : ChannelState Nat 2).poll_ready_to_receive
        7).1.try_send_with_context 1 none).1.try_send_with_context 2
        none).2.2 = [7] :=
  ⟨rfl, rfl, rfl, by decide⟩

/-- C10 (amended): every successful `try_send` invokes `wake` on the consumer
waker slot — signalling whatever waker is registered there, even when the
queue was already non-empty — and leaves the slot empty; consequently a
consumer registered via `poll_ready_to_receive` is signalled by the next
subsequent successful send (after which the slot is empty, so later sends
signal it only if it re-registers). -/
theorem c10_amended_send_wake (s : ChannelState α N) (v : α) (cx : Option Nat)
    (k : Nat) :
    ((s.try_send_with_context v cx).2.1 = .ok () →
      (s.try_send_with_context v cx).2.2 = (s.receiver_waker.wake).2 ∧
      (s.try_send_with_context v cx).1.receiver_waker = ⟨none⟩) ∧
    (((s.poll_ready_to_receive k).1.try_send_with_context v cx).2.1 = .ok () →
      ((s.poll_ready_to_receive k).1.try_send_with_context v cx).2.2 = [k]) := by
  constructor
  · intro hok
    by_cases hf : s.queue.items.length = N
    · obtain ⟨-, e2, -⟩ := try_send_full s v cx hf
      rw [e2] at hok
      exact absurd hok (by simp)
    · obtain ⟨e1, e2⟩ := try_send_ok_wakes s v cx hf
      exact ⟨e1, by rw [e2, wake_fst]⟩
  · intro hok
    rw [poll_ready_to_receive_state] at hok ⊢
    by_cases hf : s.queue.items.length = N
    · obtain ⟨-, e2, -⟩ :=
        try_send_full ({ s with receiver_waker := ⟨some k⟩ }) v cx hf
      rw [e2] at hok
      exact absurd hok (by simp)
    · obtain ⟨e1, -⟩ :=
        try_send_ok_wakes ({ s with receiver_waker := ⟨some k⟩ }) v cx hf
      rw [e1]
      rfl

/-- Witness for C10 (amended) on a capacity-3 channel already holding `[5]`
with consumer waker 3 registered: the successful send signals waker 3 and
empties the slot; after registering waker 9 the next successful send signals
waker 9. -/
theorem c10_amended_send_wake_witness :
    ((⟨⟨[5]⟩, ⟨some 3⟩, ⟨none⟩⟩ : ChannelState Nat 3).try_send_with_context 6
        none).2.2 =
      ((⟨⟨[5]⟩, ⟨some 3⟩, ⟨none⟩⟩ : ChannelState Nat 3).receiver_waker.wake).2 ∧
    ((⟨⟨[5]⟩, ⟨some 3⟩, ⟨none⟩⟩ : ChannelState Nat 3).try_send_with_context 6
        none).1.receiver_waker = ⟨none⟩ ∧
    (((⟨⟨[5]⟩, ⟨some 3⟩, ⟨none⟩⟩ : ChannelState Nat 3).poll_ready_to_receive
        9).1.try_send_with_context 6 none).2.2 = [9] :=
  ⟨((c10_amended_send_wake (⟨⟨[5]⟩, ⟨some 3⟩, ⟨none⟩⟩ : ChannelState Nat 3) 6
      none 9).1 rfl).1,
   ((c10_amended_send_wake (⟨⟨[5]⟩, ⟨some 3⟩, ⟨none⟩⟩ : ChannelState Nat 3) 6
      none 9).1 rfl).2,
   (c10_amended_send_wake (⟨⟨[5]⟩, ⟨some 3⟩, ⟨none⟩⟩ : ChannelState Nat 3) 6
      none 9).2 rfl⟩
